import Mathlib

/-!
Verification of the Rust crate `FP32WithFlag` (`src/fp32_with_flag.rs`).

The crate stores one `f32` together with a boolean flag inside 4 bytes by
reusing bit 0 of the float's mantissa as the flag bit.  It never performs
floating-point arithmetic: every operation is bit manipulation on the four
little-endian bytes of the float's IEEE-754 bit pattern.  We therefore
embed an `f32` by its 32-bit pattern, a natural number below `2 ^ 32`
(`f32::to_le_bytes` / `f32::from_le_bytes` move between the pattern and
its four little-endian bytes), which makes the embedding exact.
-/

/-- The Rust constant `SMALL_BYTE : usize = 0`, the index of the
little-endian low byte inside `num_ar`.  In the Lean model that index is
the field `num_ar0`. -/
def SMALL_BYTE : Nat := 0

/-- Rust `f32::is_nan`, read off the bit pattern: the exponent field
(bits 23..30) is all ones and the mantissa field (bits 0..22) is nonzero.
`8388608 = 2 ^ 23`. -/
def f32_is_nan (bits : Nat) : Bool :=
  (bits / 8388608) % 256 == 255 && bits % 8388608 != 0

/-- Rust `f32::to_le_bytes`: the four little-endian bytes of the bit
pattern, lowest byte first. -/
def f32_to_le_bytes (bits : Nat) : Nat × Nat × Nat × Nat :=
  (bits % 256, (bits / 256) % 256, (bits / 65536) % 256, (bits / 16777216) % 256)

/-- Rust `f32::from_le_bytes`: rebuild the bit pattern from the four
little-endian bytes. -/
def f32_from_le_bytes (b0 b1 b2 b3 : Nat) : Nat :=
  b0 + 256 * b1 + 65536 * b2 + 16777216 * b3

/-- The struct `FP32WithFlag { num_ar: [u8; 4] }`.  Field `num_arI`
models `num_ar[I]`; `num_ar0` is the byte at index `SMALL_BYTE`. -/
structure FP32WithFlag where
  num_ar0 : Nat
  num_ar1 : Nat
  num_ar2 : Nat
  num_ar3 : Nat
deriving DecidableEq

namespace FP32WithFlag

/-- `FP32WithFlag::set_bit(byte, n_bit) = byte | (1u8 << n_bit)`. -/
def set_bit (b n_bit : Nat) : Nat := b ||| (1 <<< n_bit)

/-- `FP32WithFlag::clear_bit(byte, n_bit) = byte & !(1u8 << n_bit)`;
the `u8` complement `!x` is `x ^^^ 255`. -/
def clear_bit (b n_bit : Nat) : Nat := b &&& ((1 <<< n_bit) ^^^ 255)

/-- `FP32WithFlag::check_bit(byte, n_bit) = (byte >> n_bit) & 1`. -/
def check_bit (b n_bit : Nat) : Nat := (b >>> n_bit) &&& 1

/-- `FP32WithFlag::new(val, flag)`.  The Rust `assert!(!val.is_nan())`
panics on NaN; the panic is modelled as `none`. -/
def new (val : Nat) (flag : Bool) : Option FP32WithFlag :=
  if f32_is_nan val then none
  else
    let b := f32_to_le_bytes val
    if flag then some ⟨set_bit b.1 0, b.2.1, b.2.2.1, b.2.2.2⟩
    else some ⟨clear_bit b.1 0, b.2.1, b.2.2.1, b.2.2.2⟩

/-- `FP32WithFlag::get_val`: clear bit 0 of a copy of the stored low
byte, then rebuild the float from the bytes. -/
def get_val (s : FP32WithFlag) : Nat :=
  f32_from_le_bytes (clear_bit s.num_ar0 0) s.num_ar1 s.num_ar2 s.num_ar3

/-- `FP32WithFlag::set_val(&mut self, val) -> Result<(), String>`:
returns the updated struct together with the `Result`.  On NaN the error
is returned and the struct is left unchanged; otherwise the bytes of
`val` replace the stored bytes with the old flag bit re-applied. -/
def set_val (s : FP32WithFlag) (val : Nat) : FP32WithFlag × Except String Unit :=
  if f32_is_nan val then
    (s, Except.error "Error: FP32WithFlag.set_val() - val is NAN!")
  else
    let b := f32_to_le_bytes val
    if check_bit s.num_ar0 0 == 1 then
      (⟨set_bit b.1 0, b.2.1, b.2.2.1, b.2.2.2⟩, Except.ok ())
    else
      (⟨clear_bit b.1 0, b.2.1, b.2.2.1, b.2.2.2⟩, Except.ok ())

/-- `FP32WithFlag::get_flag`: whether bit 0 of the stored low byte is 1. -/
def get_flag (s : FP32WithFlag) : Bool :=
  check_bit s.num_ar0 0 == 1

/-- `FP32WithFlag::set_flag`: force bit 0 of the stored low byte to
`flag`, leaving the other bytes untouched. -/
def set_flag (s : FP32WithFlag) (flag : Bool) : FP32WithFlag :=
  if flag then ⟨set_bit s.num_ar0 0, s.num_ar1, s.num_ar2, s.num_ar3⟩
  else ⟨clear_bit s.num_ar0 0, s.num_ar1, s.num_ar2, s.num_ar3⟩

/-- The full 32-bit pattern currently stored in the four bytes
(including the flag bit), i.e. the raw content of `num_ar`. -/
def stored_bits (s : FP32WithFlag) : Nat :=
  f32_from_le_bytes s.num_ar0 s.num_ar1 s.num_ar2 s.num_ar3

/-- The states reachable through the public API: produced by a
successful `new` and closed under `set_val` and `set_flag`.  Inputs are
bit patterns of genuine `f32` values, hence below `2 ^ 32`. -/
inductive Reachable : FP32WithFlag → Prop where
  | of_new : ∀ (val : Nat) (flag : Bool) (s : FP32WithFlag),
      val < 4294967296 → new val flag = some s → Reachable s
  | of_set_val : ∀ (s : FP32WithFlag) (val : Nat),
      Reachable s → val < 4294967296 → Reachable (set_val s val).1
  | of_set_flag : ∀ (s : FP32WithFlag) (f : Bool),
      Reachable s → Reachable (set_flag s f)

/-- The internal invariant of every reachable struct: its four bytes are
genuine `u8` values and the decoded value is not NaN. -/
def GoodState (s : FP32WithFlag) : Prop :=
  s.num_ar0 < 256 ∧ s.num_ar1 < 256 ∧ s.num_ar2 < 256 ∧ s.num_ar3 < 256 ∧
  f32_is_nan (get_val s) = false

end FP32WithFlag

namespace FP32WithFlag

theorem set_bit_zero (b : Nat) : set_bit b 0 = b ||| 1 := by
  have h : (1 : Nat) <<< 0 = 1 := by decide
  simp [set_bit, h]

theorem clear_bit_zero (b : Nat) : clear_bit b 0 = b &&& 254 := by
  have h : ((1 : Nat) <<< 0) ^^^ 255 = 254 := by decide
  simp [clear_bit, h]

theorem check_bit_zero (b : Nat) : check_bit b 0 = b &&& 1 := by
  simp [check_bit]

set_option maxRecDepth 4096 in
/-- Bit-level facts about the byte operations the crate performs on the
low byte, established once over the whole `u8` range. -/
theorem byte_facts : ∀ b : Fin 256,
    (b.val ||| 1) < 256 ∧ (b.val &&& 254) < 256 ∧
    (b.val ||| 1) &&& 254 = 2 * (b.val / 2) ∧
    (b.val &&& 254) &&& 254 = 2 * (b.val / 2) ∧
    (b.val &&& 254) = 2 * (b.val / 2) ∧
    (2 * (b.val / 2)) &&& 254 = 2 * (b.val / 2) ∧
    (b.val ||| 1) &&& 1 = 1 ∧
    (b.val &&& 254) &&& 1 = 0 ∧
    (b.val &&& 1) = b.val % 2 := by decide

end FP32WithFlag

namespace FP32WithFlag

theorem or_one_lt (b : Nat) (h : b < 256) : b ||| 1 < 256 :=
  (byte_facts ⟨b, h⟩).1

theorem and_mask_lt (b : Nat) (h : b < 256) : b &&& 254 < 256 :=
  (byte_facts ⟨b, h⟩).2.1

theorem or_one_and_mask (b : Nat) (h : b < 256) : (b ||| 1) &&& 254 = 2 * (b / 2) :=
  (byte_facts ⟨b, h⟩).2.2.1

theorem and_mask_and_mask (b : Nat) (h : b < 256) : b &&& 254 &&& 254 = 2 * (b / 2) :=
  (byte_facts ⟨b, h⟩).2.2.2.1

theorem and_mask_eq (b : Nat) (h : b < 256) : b &&& 254 = 2 * (b / 2) :=
  (byte_facts ⟨b, h⟩).2.2.2.2.1

theorem even_and_mask (b : Nat) (h : b < 256) : (2 * (b / 2)) &&& 254 = 2 * (b / 2) :=
  (byte_facts ⟨b, h⟩).2.2.2.2.2.1

theorem or_one_and_one (b : Nat) (h : b < 256) : (b ||| 1) &&& 1 = 1 :=
  (byte_facts ⟨b, h⟩).2.2.2.2.2.2.1

theorem and_mask_and_one (b : Nat) (h : b < 256) : b &&& 254 &&& 1 = 0 :=
  (byte_facts ⟨b, h⟩).2.2.2.2.2.2.2.1

theorem and_one_eq (b : Nat) (h : b < 256) : b &&& 1 = b % 2 :=
  (byte_facts ⟨b, h⟩).2.2.2.2.2.2.2.2

theorem get_val_new (val : Nat) (flag : Bool) (h32 : val < 4294967296)
    (hnan : f32_is_nan val = false) :
    (new val flag).map get_val = some (2 * (val / 2)) := by
  have hm : val % 256 < 256 := Nat.mod_lt _ (by norm_num)
  cases flag <;>
    simp [new, hnan, f32_to_le_bytes, get_val, f32_from_le_bytes, set_bit_zero, clear_bit_zero,
      or_one_and_mask _ hm, and_mask_and_mask _ hm] <;> omega

theorem get_flag_new (val : Nat) (flag : Bool) (hnan : f32_is_nan val = false) :
    (new val flag).map get_flag = some flag := by
  have hm : val % 256 < 256 := Nat.mod_lt _ (by norm_num)
  cases flag <;>
    simp [new, hnan, f32_to_le_bytes, get_flag, check_bit_zero, set_bit_zero, clear_bit_zero,
      or_one_and_one _ hm, and_mask_and_one _ hm]

theorem f32_is_nan_even (v : Nat) (h : f32_is_nan v = false) :
    f32_is_nan (2 * (v / 2)) = false := by
  simp only [f32_is_nan, Bool.and_eq_false_iff, beq_eq_false_iff_ne, bne_eq_false_iff_eq,
    ne_eq] at h ⊢
  omega

theorem new_not_nan (val : Nat) (flag : Bool) (s : FP32WithFlag)
    (h : new val flag = some s) : f32_is_nan val = false := by
  rcases hc : f32_is_nan val with _ | _
  · rfl
  · rw [new] at h
    rw [hc] at h
    simp at h

theorem new_good (val : Nat) (flag : Bool) (s : FP32WithFlag)
    (h32 : val < 4294967296) (h : new val flag = some s) : GoodState s := by
  have hnan : f32_is_nan val = false := new_not_nan val flag s h
  have hm : val % 256 < 256 := Nat.mod_lt _ (by norm_num)
  have hv := get_val_new val flag h32 hnan
  rw [h] at hv
  simp only [Option.map_some', Option.some.injEq] at hv
  cases flag
  · simp only [new, hnan, Bool.false_eq_true, if_false, f32_to_le_bytes, clear_bit_zero,
      Option.some.injEq] at h
    rw [← h]
    refine ⟨and_mask_lt _ hm, Nat.mod_lt _ (by norm_num), Nat.mod_lt _ (by norm_num),
      Nat.mod_lt _ (by norm_num), ?_⟩
    rw [show get_val _ = get_val s from congrArg get_val h, hv]
    exact f32_is_nan_even val hnan
  · simp only [new, hnan, Bool.false_eq_true, if_false, if_true, f32_to_le_bytes, set_bit_zero,
      Option.some.injEq] at h
    rw [← h]
    refine ⟨or_one_lt _ hm, Nat.mod_lt _ (by norm_num), Nat.mod_lt _ (by norm_num),
      Nat.mod_lt _ (by norm_num), ?_⟩
    rw [show get_val _ = get_val s from congrArg get_val h, hv]
    exact f32_is_nan_even val hnan

theorem get_val_set_flag (s : FP32WithFlag) (f : Bool) (h0 : s.num_ar0 < 256) :
    get_val (set_flag s f) = get_val s := by
  cases f <;>
    simp [set_flag, get_val, f32_from_le_bytes, set_bit_zero, clear_bit_zero,
      or_one_and_mask _ h0, and_mask_and_mask _ h0, and_mask_eq _ h0, even_and_mask _ h0]

theorem set_flag_good (s : FP32WithFlag) (f : Bool) (h : GoodState s) :
    GoodState (set_flag s f) := by
  obtain ⟨h0, h1, h2, h3, hn⟩ := h
  have hv := get_val_set_flag s f h0
  rw [GoodState, hv]
  cases f
  · exact ⟨and_mask_lt _ h0, h1, h2, h3, hn⟩
  · exact ⟨or_one_lt _ h0, h1, h2, h3, hn⟩

theorem get_val_set_val (s : FP32WithFlag) (val : Nat) (h32 : val < 4294967296)
    (hnan : f32_is_nan val = false) :
    get_val (set_val s val).1 = 2 * (val / 2) := by
  have hm : val % 256 < 256 := Nat.mod_lt _ (by norm_num)
  rcases h : check_bit s.num_ar0 0 == 1 with _ | _ <;>
    simp [set_val, hnan, h, f32_to_le_bytes, get_val, f32_from_le_bytes, set_bit_zero,
      clear_bit_zero, or_one_and_mask _ hm, and_mask_and_mask _ hm] <;> omega

theorem set_val_good (s : FP32WithFlag) (val : Nat) (h32 : val < 4294967296)
    (h : GoodState s) : GoodState (set_val s val).1 := by
  rcases hnan : f32_is_nan val with _ | _
  · have hm : val % 256 < 256 := Nat.mod_lt _ (by norm_num)
    have hv := get_val_set_val s val h32 hnan
    rw [GoodState, hv]
    rcases hc : check_bit s.num_ar0 0 == 1 with _ | _
    · simp only [set_val, hnan, Bool.false_eq_true, if_false, hc, f32_to_le_bytes,
        clear_bit_zero]
      exact ⟨and_mask_lt _ hm, Nat.mod_lt _ (by norm_num), Nat.mod_lt _ (by norm_num),
        Nat.mod_lt _ (by norm_num), f32_is_nan_even val hnan⟩
    · simp only [set_val, hnan, Bool.false_eq_true, if_false, hc, if_true, f32_to_le_bytes,
        set_bit_zero]
      exact ⟨or_one_lt _ hm, Nat.mod_lt _ (by norm_num), Nat.mod_lt _ (by norm_num),
        Nat.mod_lt _ (by norm_num), f32_is_nan_even val hnan⟩
  · simp only [set_val, hnan, if_true]
    exact h

theorem reachable_good (s : FP32WithFlag) (h : Reachable s) : GoodState s := by
  induction h with
  | of_new val flag s h32 hnew => exact new_good val flag s h32 hnew
  | of_set_val s val _ h32 ih => exact set_val_good s val h32 ih
  | of_set_flag s f _ ih => exact set_flag_good s f ih

end FP32WithFlag

namespace FP32WithFlag

theorem get_val_foldl_set_flag (fs : List Bool) (s : FP32WithFlag) (h : GoodState s) :
    get_val (fs.foldl set_flag s) = get_val s := by
  induction fs generalizing s with
  | nil => rfl
  | cons f fs ih =>
    rw [List.foldl_cons, ih (set_flag s f) (set_flag_good s f h), get_val_set_flag s f h.1]

/-- Claim C1, counterexample: constructing `+infinity` (pattern
`0x7F800000`) with the flag set stores the bytes `01 00 80 7F`, whose
32-bit pattern `0x7F800001` is a signaling-NaN bit pattern, so the
stored pattern of a reachable state does encode NaN. -/
theorem C1_counterexample :
    new 2139095040 true = some ⟨1, 0, 128, 127⟩ ∧
    Reachable ⟨1, 0, 128, 127⟩ ∧
    f32_is_nan (stored_bits ⟨1, 0, 128, 127⟩) = true :=
  ⟨by decide,
   Reachable.of_new 2139095040 true ⟨1, 0, 128, 127⟩ (by norm_num) (by decide),
   by decide⟩

/-- Claim C1 (amended): the stored 4-byte pattern of a reachable state
encodes NaN only in the single case where the flag is true and the
decoded value is `+infinity` or `-infinity`; in particular with the flag
false the stored pattern never encodes NaN, and `get_val` never
observes a NaN pattern. -/
theorem C1_stored_nan_only_flagged_infinity (s : FP32WithFlag) (h : Reachable s)
    (hnan : f32_is_nan (stored_bits s) = true) :
    get_flag s = true ∧ (get_val s = 2139095040 ∨ get_val s = 4286578688) := by
  obtain ⟨h0, h1, h2, h3, hn⟩ := reachable_good s h
  simp only [stored_bits, f32_from_le_bytes, f32_is_nan, Bool.and_eq_true, beq_iff_eq,
    bne_iff_ne, ne_eq] at hnan
  simp only [get_val, f32_from_le_bytes, clear_bit_zero, and_mask_eq _ h0] at hn ⊢
  simp only [f32_is_nan, Bool.and_eq_false_iff, beq_eq_false_iff_ne, bne_eq_false_iff_eq,
    ne_eq] at hn
  constructor
  · simp only [get_flag, check_bit_zero, and_one_eq _ h0, beq_iff_eq]
    omega
  · omega

theorem C1_amended_witness :
    get_flag ⟨1, 0, 128, 127⟩ = true ∧
    (get_val ⟨1, 0, 128, 127⟩ = 2139095040 ∨ get_val ⟨1, 0, 128, 127⟩ = 4286578688) :=
  C1_stored_nan_only_flagged_infinity ⟨1, 0, 128, 127⟩
    (Reachable.of_new 2139095040 true ⟨1, 0, 128, 127⟩ (by norm_num) (by decide))
    (by decide)

end FP32WithFlag

namespace FP32WithFlag

/-- Claim C2: constructing from any NaN bit pattern fails (the Rust
assert panics) and no instance is produced, for every flag value. -/
theorem C2_construct_nan_fails (val : Nat) (flag : Bool) (h : f32_is_nan val = true) :
    new val flag = none := by
  simp [new, h]

theorem C2_witness : new 2143289344 false = none :=
  C2_construct_nan_fails 2143289344 false (by decide)

/-- Claim C3: for every non-NaN pattern `v` below `2 ^ 32` whose
mantissa least significant bit is 0 (this includes both zeros and both
infinities) and every flag `f`, `get_val` after `new v f` returns
exactly `v` bit-for-bit and `get_flag` returns `f`. -/
theorem C3_roundtrip_even_mantissa (v : Nat) (f : Bool) (h32 : v < 4294967296)
    (hnan : f32_is_nan v = false) (hlsb : v % 2 = 0) :
    (new v f).map get_val = some v ∧ (new v f).map get_flag = some f := by
  have h := get_val_new v f h32 hnan
  have he : 2 * (v / 2) = v := by omega
  rw [he] at h
  exact ⟨h, get_flag_new v f hnan⟩

theorem C3_witness :
    (new 1092616192 true).map get_val = some 1092616192 ∧
    (new 1092616192 true).map get_flag = some true :=
  C3_roundtrip_even_mantissa 1092616192 true (by norm_num) (by decide) (by norm_num)

/-- Claim C4: for every non-NaN pattern `v` below `2 ^ 32` whose
mantissa least significant bit is 1 and every flag `f`, `get_val` after
`new v f` returns the pattern `2 * (v / 2)`, i.e. `v` with the mantissa
LSB forced to 0; it differs from `v`, and the difference is exactly the
one step `v = 2 * (v / 2) + 1` toward clearing that bit. -/
theorem C4_roundtrip_odd_mantissa (v : Nat) (f : Bool) (h32 : v < 4294967296)
    (hnan : f32_is_nan v = false) (hlsb : v % 2 = 1) :
    (new v f).map get_val = some (2 * (v / 2)) ∧ 2 * (v / 2) ≠ v ∧ v = 2 * (v / 2) + 1 :=
  ⟨get_val_new v f h32 hnan, by omega, by omega⟩

theorem C4_witness :
    (new 1079194419 false).map get_val = some (2 * (1079194419 / 2)) ∧
    2 * (1079194419 / 2) ≠ 1079194419 ∧ 1079194419 = 2 * (1079194419 / 2) + 1 :=
  C4_roundtrip_odd_mantissa 1079194419 false (by norm_num) (by decide) (by norm_num)

/-- Claim C5: `set_val` fails with the NaN error if and only if the
written pattern is NaN; on failure the struct is completely unchanged
(so the prior value and flag stay observable), and on every non-NaN
pattern the call succeeds. -/
theorem C5_write_value_nan_guard (s : FP32WithFlag) (v : Nat) :
    ((set_val s v).2 = Except.error "Error: FP32WithFlag.set_val() - val is NAN!"
        ↔ f32_is_nan v = true)
    ∧ (f32_is_nan v = true → (set_val s v).1 = s)
    ∧ (f32_is_nan v = false → (set_val s v).2 = Except.ok ()) := by
  rcases h : f32_is_nan v with _ | _
  · rcases hc : check_bit s.num_ar0 0 == 1 with _ | _ <;> simp [set_val, h, hc]
  · simp [set_val, h]

theorem C5_witness : (set_val ⟨0, 0, 32, 65⟩ 2143289344).1 = ⟨0, 0, 32, 65⟩ :=
  (C5_write_value_nan_guard ⟨0, 0, 32, 65⟩ 2143289344).2.1 (by decide)

/-- Claim C6: a successful `set_val` never alters the flag: after
writing any non-NaN pattern, `get_flag` returns exactly what it
returned before the call, on every struct. -/
theorem or_one_mod_two (b : Nat) (h : b < 256) : (b ||| 1) % 2 = 1 := by
  rw [← and_one_eq _ (or_one_lt b h)]
  exact or_one_and_one b h

theorem and_mask_mod_two (b : Nat) (h : b < 256) : (b &&& 254) % 2 = 0 := by
  rw [← and_one_eq _ (and_mask_lt b h)]
  exact and_mask_and_one b h

theorem C6_write_value_preserves_flag (s : FP32WithFlag) (v : Nat)
    (hv : f32_is_nan v = false) :
    get_flag (set_val s v).1 = get_flag s := by
  have hm : v % 256 < 256 := Nat.mod_lt _ (by norm_num)
  by_cases hc : s.num_ar0 % 2 = 1 <;>
    simp [set_val, hv, hc, f32_to_le_bytes, get_flag, check_bit_zero, set_bit_zero,
      clear_bit_zero, or_one_mod_two _ hm, and_mask_mod_two _ hm]

theorem C6_witness : get_flag (set_val ⟨1, 0, 32, 65⟩ 1073741824).1 = get_flag ⟨1, 0, 32, 65⟩ :=
  C6_write_value_preserves_flag ⟨1, 0, 32, 65⟩ 1073741824 (by decide)

/-- Claim C7: the value observed through `get_val` right after
`new v f1` is unchanged by any subsequent sequence of `set_flag` calls
(in particular by a single `set_flag f2`). -/
theorem C7_write_flag_preserves_value (v : Nat) (f1 : Bool) (s : FP32WithFlag)
    (h32 : v < 4294967296) (hs : new v f1 = some s) (fs : List Bool) :
    get_val (fs.foldl set_flag s) = get_val s :=
  get_val_foldl_set_flag fs s (new_good v f1 s h32 hs)

theorem C7_witness : get_val ([false].foldl set_flag ⟨1, 0, 32, 65⟩) = get_val ⟨1, 0, 32, 65⟩ :=
  C7_write_flag_preserves_value 1092616192 true ⟨1, 0, 32, 65⟩ (by norm_num) (by decide) [false]

/-- Claim C8: on every reachable struct, `set_flag f` followed by
`get_flag` returns `f`, for both flag values, whatever the prior stored
value and flag were. -/
theorem C8_write_flag_read_flag (s : FP32WithFlag) (f : Bool) (h : Reachable s) :
    get_flag (set_flag s f) = f := by
  have h0 := (reachable_good s h).1
  cases f <;>
    simp [set_flag, get_flag, check_bit_zero, set_bit_zero, clear_bit_zero,
      or_one_and_one _ h0, and_mask_and_one _ h0]

theorem C8_witness : get_flag (set_flag ⟨1, 0, 32, 65⟩ false) = false :=
  C8_write_flag_read_flag ⟨1, 0, 32, 65⟩ false
    (Reachable.of_new 1092616192 true ⟨1, 0, 32, 65⟩ (by norm_num) (by decide))

/-- Claim C9: on every reachable struct the pattern returned by
`get_val` is never a NaN pattern — even when the struct was built from
an infinity with the flag set, clearing bit 0 during the read restores
a non-NaN pattern. -/
theorem C9_read_value_never_nan (s : FP32WithFlag) (h : Reachable s) :
    f32_is_nan (get_val s) = false :=
  (reachable_good s h).2.2.2.2

theorem C9_witness : f32_is_nan (get_val ⟨1, 0, 128, 127⟩) = false :=
  C9_read_value_never_nan ⟨1, 0, 128, 127⟩
    (Reachable.of_new 2139095040 true ⟨1, 0, 128, 127⟩ (by norm_num) (by decide))

/-- Claim C10: re-encoding a decoded value is lossless: every pattern
returned by `get_val` on a reachable struct already has its mantissa
LSB equal to 0, so feeding it back through `new` (with any flag) and
reading again returns the same pattern bit-for-bit. -/
theorem C10_reencode_lossless (x : FP32WithFlag) (f : Bool) (h : Reachable x) :
    get_val x % 2 = 0 ∧ (new (get_val x) f).map get_val = some (get_val x) := by
  obtain ⟨h0, h1, h2, h3, hn⟩ := reachable_good x h
  have heven : get_val x % 2 = 0 := by
    simp only [get_val, f32_from_le_bytes, clear_bit_zero, and_mask_eq _ h0]
    omega
  have h32 : get_val x < 4294967296 := by
    simp only [get_val, f32_from_le_bytes, clear_bit_zero, and_mask_eq _ h0]
    omega
  have hr := get_val_new (get_val x) f h32 hn
  rw [show 2 * (get_val x / 2) = get_val x from by omega] at hr
  exact ⟨heven, hr⟩

theorem C10_witness :
    get_val ⟨1, 0, 32, 65⟩ % 2 = 0 ∧
    (new (get_val ⟨1, 0, 32, 65⟩) false).map get_val = some (get_val ⟨1, 0, 32, 65⟩) :=
  C10_reencode_lossless ⟨1, 0, 32, 65⟩ false
    (Reachable.of_new 1092616192 true ⟨1, 0, 32, 65⟩ (by norm_num) (by decide))

end FP32WithFlag
